import Mathlib

/-!
Shallow embedding of the asynchronous runbook-job orchestration engine of
`azure-mcp-server` (`src/tools/trigger_automation_runbooks.py`) and of the
credential provider (`src/tools/config/auth.py`).

Remote effects (job creation, status polling, stream fetching, token probes)
are modelled as oracle inputs: a `ControlPlane` record supplies the outcome of
each remote call, and the orchestrator threads explicit call counters so that
properties about the number of network calls and sleeps are statable.
Statuses are plain strings, exactly as in the Python source, where
`current_job_details.status` is a string compared against string lists.
-/

/-- Abstract rendering of the job object returned by `job.create` / `job.get`.
Fields mirror the attributes the source reads; optional attributes whose
absence the source tolerates are `Option`s, timestamps are carried as their
already-`isoformat`-ted strings. -/
structure JobDetails where
  status : String
  exception : Option String := none
  start_time : Option String := none
  end_time : Option String := none
  creation_time : Option String := none
  last_modified_time : Option String := none
  provisioning_state : Option String := none
deriving Repr, DecidableEq

/-- An Azure SDK exception raised by a control-plane call, as distinguished by
the `except` clauses at the bottom of `_create_and_monitor_runbook_job`.
`httpError` carries the message plus the `error` and `response` attributes the
handler renders with `getattr`. -/
inductive AzError where
  | resourceNotFound (msg : String)
  | httpError (msg errorDetail responseDetail : String)
  | other (msg : String)
deriving Repr, DecidableEq

/-- A raw job-stream record as yielded by `job_stream.list_by_job`; each field
is optional because the source guards every access with `hasattr`. -/
structure RawStream where
  id : Option String := none
  stream_type : Option String := none
  time : Option String := none
  summary : Option String := none
  value : Option String := none
deriving Repr, DecidableEq

/-- An exception raised while iterating the stream list, as distinguished by
the `except` clauses of `_get_job_output_content`. -/
inductive FetchErr where
  | attributeError (msg : String)
  | httpError (msg : String)
  | otherError (msg : String)
deriving Repr, DecidableEq

/-- One entry of the `output_streams` list built by `_get_job_output_content`
(or synthesized inline for the timed-out case). Keys of the Python dict. -/
structure OutputRecord where
  stream_id : Option String := none
  stream_type : String
  time : Option String := none
  summary : Option String := none
  value : Option String := none
deriving Repr, DecidableEq

/-- Oracle for the three remote calls the orchestrator issues. `getResult k`
is the outcome of the (k+1)-th `job.get` poll; `streamFetch` is the outcome of
iterating `job_stream.list_by_job`. -/
structure ControlPlane where
  createResult : Except AzError JobDetails
  getResult : Nat → Except AzError JobDetails
  streamFetch : Except FetchErr (List RawStream)

/-- The final `result` dict of `_create_and_monitor_runbook_job`, with the
exact keys the source assembles. -/
structure JobResult where
  job_id : String
  runbook_name : String
  automation_account_name : String
  status : String
  start_time : Option String
  end_time : Option String
  creation_time : Option String
  last_modified_time : Option String
  provisioning_state : Option String
  parameters_used : Option (List (String × String))
  output_streams : List OutputRecord
  error_summary : Option String
deriving Repr, DecidableEq

/-- Either the assembled `result` dict or one of the bare `{"Error": msg}`
dicts returned by the exception handlers (and by the argument checks of
`trigger_vm_power_status_runbook_logic`). -/
inductive RunOutcome where
  | result (r : JobResult)
  | bareError (msg : String)
deriving Repr, DecidableEq

/-- Observable effects of one orchestration run: how many `job.create` and
`job.get` calls were issued, how many `asyncio.sleep(poll_interval)` calls ran,
the accumulated `total_wait_time`, how many times `_get_job_output_content`
was invoked, and the returned value. -/
structure RunTrace where
  createCalls : Nat
  getCalls : Nat
  sleeps : Nat
  totalWait : Nat
  collectCalls : Nat
  outcome : RunOutcome
deriving Repr, DecidableEq

/-- `job_final_status not in ["Completed", "Failed", "Suspended", "Stopped"]`
(negated): the loop-exit test of the polling loop. -/
def isTerminalStatus (status : String) : Bool :=
  status == "Completed" || status == "Failed" || status == "Suspended" || status == "Stopped"

/-- `job_final_status in ["Failed", "Suspended", "Stopped"]`: the `elif` test
of the result-composition block. -/
def isFailedLike (status : String) : Bool :=
  status == "Failed" || status == "Suspended" || status == "Stopped"

/-- Python truthiness of an `Optional[str]` value: `None` and `""` are falsy. -/
def truthyStr : Option String → Bool
  | some s => !(s == "")
  | none => false

/-- The `"Info"` placeholder dict built when no stream records were found. -/
def noRecordsPlaceholder : OutputRecord :=
  { stream_type := "Info"
    summary := some "No output stream records were found for this job."
    value := none }

/-- The synthetic `"Error"` dict built by each `except` clause of
`_get_job_output_content`. -/
def fetchErrorRecord : FetchErr → OutputRecord
  | .attributeError m =>
      { stream_type := "Error"
        summary := some ("SDK/Attribute Error fetching job output: " ++ m)
        value := none }
  | .httpError m =>
      { stream_type := "Error"
        summary := some ("API Error fetching job output: " ++ m)
        value := none }
  | .otherError m =>
      { stream_type := "Error"
        summary := some ("Unexpected error fetching job output: " ++ m)
        value := none }

/-- The per-record reshaping done inside the `async for` loop:
`value` is kept only when truthy, `stream_type` defaults to `"Unknown"` when
the attribute is missing, `time` and `summary` pass through. -/
def reshapeStream (s : RawStream) : OutputRecord :=
  { stream_id := s.id
    stream_type := s.stream_type.getD "Unknown"
    time := s.time
    summary := s.summary
    value := if truthyStr s.value then s.value else none }

/-- `_get_job_output_content`: reshape every fetched stream record; if none
were fetched return the single `"Info"` placeholder; if the fetch raised,
return the single synthetic `"Error"` record for that exception.
The `job_id` argument is used only in log messages in the source. -/
def _get_job_output_content (job_id : String)
    (streamFetch : Except FetchErr (List RawStream)) : List OutputRecord :=
  match streamFetch with
  | .ok streams =>
      let output_records := streams.map reshapeStream
      if output_records.isEmpty then [noRecordsPlaceholder] else output_records
  | .error e => [fetchErrorRecord e]

/-- Result of the polling loop: `done` carries the final status (a control
plane terminal status or the locally forced `"TimedOut"`), the last
`current_job_details`, and the accumulated counters; `pollError` is a
`job.get` call raising (the exception escapes to the outer handlers);
`fuelOut` means the supplied fuel did not cover the number of iterations the
Python `while` loop would run. -/
inductive PollOutcome where
  | done (finalStatus : String) (details : JobDetails) (totalWait getCalls sleeps : Nat)
  | pollError (e : AzError) (totalWait getCalls sleeps : Nat)
  | fuelOut
deriving Repr, DecidableEq

/-- The `while job_final_status not in [...]` loop of
`_create_and_monitor_runbook_job`, lines 102-119: on each iteration, exit if
the status is terminal; else if `total_wait_time >= job_timeout_seconds`
force `"TimedOut"` and exit; else sleep one interval, add it to the total,
and refresh the job details with `job.get`. -/
def pollLoop (getResult : Nat → Except AzError JobDetails)
    (job_timeout_seconds poll_interval_seconds : Nat) :
    Nat → String → JobDetails → Nat → Nat → Nat → PollOutcome
  | 0, _, _, _, _, _ => .fuelOut
  | fuel + 1, status, details, totalWait, gets, sleeps =>
    if isTerminalStatus status then
      .done status details totalWait gets sleeps
    else if job_timeout_seconds ≤ totalWait then
      .done "TimedOut" details totalWait gets sleeps
    else
      match getResult gets with
      | .error e =>
          .pollError e (totalWait + poll_interval_seconds) (gets + 1) (sleeps + 1)
      | .ok d =>
          pollLoop getResult job_timeout_seconds poll_interval_seconds fuel
            d.status d (totalWait + poll_interval_seconds) (gets + 1) (sleeps + 1)

/-- `f"Job ended with status: {job_final_status}."` -/
def jobEndedMsg (status : String) : String :=
  "Job ended with status: " ++ status ++ "."

/-- `f"Job '{job_guid}' monitoring timed out after {job_timeout_seconds} seconds."` -/
def timedOutMsg (job_guid : String) (job_timeout_seconds : Nat) : String :=
  "Job '" ++ job_guid ++ "' monitoring timed out after " ++
    toString job_timeout_seconds ++ " seconds."

/-- `f"Job ended in an unexpected state: {job_final_status}"` -/
def unexpectedStateMsg (status : String) : String :=
  "Job ended in an unexpected state: " ++ status

/-- Lines 122-157: assemble the `result` dict from the final status and the
last job details, then fill `output_streams` / `error_summary` according to
the status. Also returns how many times `_get_job_output_content` ran (the
timed-out branch synthesizes its record inline, without calling it). -/
def composeResult (job_guid runbook_name automation_account_name : String)
    (parameters : Option (List (String × String)))
    (finalStatus : String) (details : JobDetails) (job_timeout_seconds : Nat)
    (streamFetch : Except FetchErr (List RawStream)) : JobResult × Nat :=
  let base : JobResult :=
    { job_id := job_guid
      runbook_name := runbook_name
      automation_account_name := automation_account_name
      status := finalStatus
      start_time := details.start_time
      end_time := details.end_time
      creation_time := details.creation_time
      last_modified_time := details.last_modified_time
      provisioning_state := details.provisioning_state
      parameters_used := parameters
      output_streams := []
      error_summary := none }
  if finalStatus == "Completed" then
    ({ base with output_streams := _get_job_output_content job_guid streamFetch }, 1)
  else if isFailedLike finalStatus then
    ({ base with
        error_summary :=
          some (if truthyStr details.exception then details.exception.getD ""
                else jobEndedMsg finalStatus)
        output_streams := _get_job_output_content job_guid streamFetch }, 1)
  else if finalStatus == "TimedOut" then
    let msg := timedOutMsg job_guid job_timeout_seconds
    ({ base with
        error_summary := some msg
        output_streams := [{ stream_type := "Error", summary := some msg, value := none }] }, 0)
  else
    ({ base with error_summary := some (unexpectedStateMsg finalStatus) }, 0)

/-- Messages of the three `except` handlers at lines 159-170. -/
def lifecycleErrMsg (resource_group_name automation_account_name runbook_name : String) :
    AzError → String
  | .resourceNotFound m =>
      "Resource not found error for runbook '" ++ runbook_name ++
        "' or Automation Account '" ++ automation_account_name ++ "' in RG '" ++
        resource_group_name ++ "'. Details: " ++ m
  | .httpError m ed resp =>
      "Azure API error during job lifecycle for runbook '" ++ runbook_name ++
        "': " ++ m ++ ". Details: " ++ ed ++ " - " ++ resp
  | .other m =>
      "An unexpected error occurred while processing runbook '" ++ runbook_name ++
        "': " ++ m

/-- `_create_and_monitor_runbook_job`: create the job (the generated
`uuid.uuid4()` job name is the oracle input `job_guid`), poll until a terminal
status or the timeout budget, then compose the result; any `AzError` escaping
job creation or a poll is turned into a bare `{"Error": msg}` outcome by the
handlers at lines 159-170. `none` means the fuel did not cover the loop. -/
def _create_and_monitor_runbook_job (cp : ControlPlane)
    (resource_group_name automation_account_name runbook_name job_guid : String)
    (parameters : Option (List (String × String)))
    (poll_interval_seconds job_timeout_seconds fuel : Nat) : Option RunTrace :=
  match cp.createResult with
  | .error e =>
      some { createCalls := 1, getCalls := 0, sleeps := 0, totalWait := 0, collectCalls := 0
             outcome := .bareError
               (lifecycleErrMsg resource_group_name automation_account_name runbook_name e) }
  | .ok initial =>
    match pollLoop cp.getResult job_timeout_seconds poll_interval_seconds fuel
        initial.status initial 0 0 0 with
    | .fuelOut => none
    | .pollError e w g s =>
        some { createCalls := 1, getCalls := g, sleeps := s, totalWait := w, collectCalls := 0
               outcome := .bareError
                 (lifecycleErrMsg resource_group_name automation_account_name runbook_name e) }
    | .done finalStatus details w g s =>
        let rc := composeResult job_guid runbook_name automation_account_name parameters
          finalStatus details job_timeout_seconds cp.streamFetch
        some { createCalls := 1, getCalls := g, sleeps := s, totalWait := w
               collectCalls := rc.2, outcome := .result rc.1 }

/-- `trigger_vm_power_status_runbook_logic`: validate `resource_group_name`
and `vm_name` (Python truthiness, so empty strings fail) before opening the
client, then delegate with `parameters = {"VMName": vm_name}` and the default
poll interval 10 and timeout 900. -/
def trigger_vm_power_status_runbook_logic (cp : ControlPlane)
    (resource_group_name vm_name automation_account_name runbook_name job_guid : String)
    (fuel : Nat) : Option RunTrace :=
  if resource_group_name == "" then
    some { createCalls := 0, getCalls := 0, sleeps := 0, totalWait := 0, collectCalls := 0
           outcome := .bareError "Resource group name for the Automation Account is required." }
  else if vm_name == "" then
    some { createCalls := 0, getCalls := 0, sleeps := 0, totalWait := 0, collectCalls := 0
           outcome := .bareError "VMName parameter is required for the VMPowerStatus runbook." }
  else
    _create_and_monitor_runbook_job cp resource_group_name automation_account_name
      runbook_name job_guid (some [("VMName", vm_name)]) 10 900 fuel

/-!
Embedding of `AzureAuthenticator.get_credential` (`src/tools/config/auth.py`).
The environment variables it reads and the outcome of the single
`get_token("https://management.azure.com/.default")` probe are oracle inputs.
-/

/-- The environment variables `get_credential` reads via `os.getenv`. -/
structure AuthEnv where
  azure_tenant_id : Option String := none
  azure_client_id : Option String := none
  azure_client_secret : Option String := none
  azure_managed_identity_client_id : Option String := none
deriving Repr, DecidableEq

/-- The credential object constructed before the token probe. -/
inductive Credential where
  | clientSecretCredential (tenant_id client_id client_secret : String)
  | managedIdentityCredential (client_id : Option String)
  | defaultAzureCredential
deriving Repr, DecidableEq

/-- Outcome of `credential_instance.get_token(...)`: success, a
`ClientAuthenticationError`, or any other exception. -/
inductive ProbeOutcome where
  | success
  | clientAuthError (msg : String)
  | unexpectedError (msg : String)
deriving Repr, DecidableEq

deriving instance DecidableEq for Except

/-- Observable outcome of one `get_credential` call: how many token probes
were issued against the control plane, and either the returned (tested)
credential or the message of the raised `ConnectionError`. -/
structure AuthAttempt where
  tokenProbes : Nat
  result : Except String Credential
deriving Repr, DecidableEq

/-- The `EnvironmentError` message for missing SPN variables, line 31. -/
def spnMissingMsg : String :=
  "For SPN auth, AZURE_TENANT_ID, AZURE_CLIENT_ID, and AZURE_CLIENT_SECRET environment variables must be set."

/-- The `ValueError` message for an unknown `auth_type`, line 48. -/
def invalidAuthTypeMsg (auth_type : String) : String :=
  "Invalid auth_type '" ++ auth_type ++
    "' specified. Must be 'default', 'spn', or 'identity'."

/-- The `ConnectionError` message wrapping a `ClientAuthenticationError`
raised by the token probe, lines 59-62. -/
def authFailedMsg (auth_type msg : String) : String :=
  "Azure authentication failed for auth_type '" ++ auth_type ++
    "'. Ensure your environment is correctly configured for this auth method (e.g., logged in with Azure CLI for 'default', correct SPN variables, or Managed Identity assigned with permissions). Details: " ++ msg

/-- The `ConnectionError` wrapping of `EnvironmentError`, line 65. -/
def configErrorMsg (auth_type msg : String) : String :=
  "Configuration error for '" ++ auth_type ++ "': " ++ msg

/-- The `ConnectionError` wrapping of `ValueError`, line 68. -/
def invalidConfigMsg (msg : String) : String :=
  "Invalid configuration: " ++ msg

/-- The `ConnectionError` wrapping of any other exception, line 76. -/
def unexpectedCredMsg (auth_type msg : String) : String :=
  "Unexpected error getting credentials for '" ++ auth_type ++ "': " ++ msg

/-- An execution environment with none of the credential variables set. -/
def emptyAuthEnv : AuthEnv := {}

/-- Run the single token-acquisition probe on a constructed credential and
translate its exceptions exactly as the `except` clauses do. -/
def runTokenProbe (probe : Credential → ProbeOutcome) (auth_type : String)
    (cred : Credential) : AuthAttempt :=
  match probe cred with
  | .success => { tokenProbes := 1, result := .ok cred }
  | .clientAuthError m => { tokenProbes := 1, result := .error (authFailedMsg auth_type m) }
  | .unexpectedError m => { tokenProbes := 1, result := .error (unexpectedCredMsg auth_type m) }

/-- `AzureAuthenticator.get_credential`: dispatch on `auth_type`; for
`"spn"`, require all three secrets truthy (`all([...])` in Python, so unset
or empty both fail) before constructing `ClientSecretCredential`; for
`"identity"`, select the identity by the optional client id; for
`"default"`, use `DefaultAzureCredential`; anything else raises. Every
constructed credential is then tested by one token probe. -/
def get_credential (env : AuthEnv) (probe : Credential → ProbeOutcome)
    (auth_type : String) : AuthAttempt :=
  if auth_type == "spn" then
    if truthyStr env.azure_tenant_id && truthyStr env.azure_client_id &&
        truthyStr env.azure_client_secret then
      runTokenProbe probe auth_type
        (.clientSecretCredential (env.azure_tenant_id.getD "")
          (env.azure_client_id.getD "") (env.azure_client_secret.getD ""))
    else
      { tokenProbes := 0, result := .error (configErrorMsg auth_type spnMissingMsg) }
  else if auth_type == "identity" then
    if truthyStr env.azure_managed_identity_client_id then
      runTokenProbe probe auth_type
        (.managedIdentityCredential env.azure_managed_identity_client_id)
    else
      runTokenProbe probe auth_type (.managedIdentityCredential none)
  else if auth_type == "default" then
    runTokenProbe probe auth_type .defaultAzureCredential
  else
    { tokenProbes := 0, result := .error (invalidConfigMsg (invalidAuthTypeMsg auth_type)) }

/-! ## Concrete fixtures used by witnesses and counterexamples -/

/-- A job whose creation acknowledgment already reports `Failed` with an
exception detail. -/
def jdFailed : JobDetails := { status := "Failed", exception := some "boom" }

/-- A job reported `Completed`. -/
def jdCompleted : JobDetails := { status := "Completed" }

/-- A job reported `Running`. -/
def jdRunning : JobDetails := { status := "Running" }

/-- A job reported `Queued`. -/
def jdQueued : JobDetails := { status := "Queued" }

/-- Control plane whose job is `Failed` on arrival and has no stream
records. -/
def cpFailedNow : ControlPlane :=
  { createResult := .ok jdFailed
    getResult := fun _ => .ok jdFailed
    streamFetch := .ok [] }

/-- Control plane whose job is `Completed` on arrival but whose stream fetch
raises an HTTP error. -/
def cpCompletedFetchErr : ControlPlane :=
  { createResult := .ok jdCompleted
    getResult := fun _ => .ok jdCompleted
    streamFetch := .error (.httpError "fetch boom") }

/-- Control plane that acknowledges `Queued` and then reports `Running`
forever. -/
def cpNeverTerminal : ControlPlane :=
  { createResult := .ok jdQueued
    getResult := fun _ => .ok jdRunning
    streamFetch := .ok [] }

/-- Control plane that acknowledges `Running`, reports `Running` on the first
poll, and then raises an HTTP error on the second poll. -/
def cpPollBreaks : ControlPlane :=
  { createResult := .ok jdRunning
    getResult := fun k => if k = 0 then .ok jdRunning else .error (.httpError "reset" "" "")
    streamFetch := .ok [] }

/-- Control plane with a zero polling budget and a pending stream record:
the run times out immediately, so the record is never fetched. -/
def cpTimedOutQuick : ControlPlane :=
  { createResult := .ok jdQueued
    getResult := fun _ => .ok jdRunning
    streamFetch := .ok [{ stream_type := some "Output", summary := some "partial" }] }

/-- Whether a run outcome is a composed `result` dict (rather than one of
the bare `{"Error": msg}` dicts). -/
def isResultOutcome : RunOutcome → Bool
  | .result _ => true
  | .bareError _ => false

/-- The final status of a run outcome, when it is a composed `result`. -/
def outcomeStatus : RunOutcome → Option String
  | .result r => some r.status
  | .bareError _ => none

/-- Control plane that reports `Running` for `n` status reports (the creation
acknowledgment included) and `Completed` from then on, with one output
stream record. -/
def cpRunningTicks (n : Nat) : ControlPlane :=
  { createResult := .ok (if n = 0 then jdCompleted else jdRunning)
    getResult := fun k => .ok (if k + 2 ≤ n then jdRunning else jdCompleted)
    streamFetch := .ok [{ stream_type := some "Output", summary := some "done" }] }

/-! ## General lemmas about the orchestrator -/

/-- The collector never returns an empty list: a successful fetch of zero
records yields the placeholder, a successful fetch of records yields them,
and a failed fetch yields the synthetic error record. -/
theorem get_job_output_content_ne_nil (job_id : String)
    (streamFetch : Except FetchErr (List RawStream)) :
    _get_job_output_content job_id streamFetch ≠ [] := by
  cases streamFetch with
  | error e => simp [_get_job_output_content]
  | ok streams =>
    cases streams with
    | nil => simp [_get_job_output_content]
    | cons a l => simp [_get_job_output_content]

/-- A terminal status is one of the four control-plane terminal strings. -/
theorem isTerminalStatus_cases (s : String) (h : isTerminalStatus s = true) :
    s = "Completed" ∨ s = "Failed" ∨ s = "Suspended" ∨ s = "Stopped" := by
  simp only [isTerminalStatus, Bool.or_eq_true, beq_iff_eq] at h
  tauto

/-- `"TimedOut"` is not one of the four control-plane terminal strings. -/
theorem isTerminalStatus_timedOut : isTerminalStatus "TimedOut" = false := by
  decide

/-- The polling loop only reports `done` with a control-plane terminal status
or with the locally forced `"TimedOut"`. -/
theorem pollLoop_done_status (g : Nat → Except AzError JobDetails) (t i : Nat) :
    ∀ fuel st d w n s st' d' w' g' s',
      pollLoop g t i fuel st d w n s = .done st' d' w' g' s' →
      isTerminalStatus st' = true ∨ st' = "TimedOut" := by
  intro fuel
  induction fuel with
  | zero =>
    intro st d w n s st' d' w' g' s' h
    simp [pollLoop] at h
  | succ fuel ih =>
    intro st d w n s st' d' w' g' s' h
    rw [pollLoop] at h
    by_cases hterm : isTerminalStatus st = true
    · simp only [hterm, if_true] at h
      obtain ⟨h1, -, -, -, -⟩ := PollOutcome.done.inj h
      exact Or.inl (h1 ▸ hterm)
    · simp only [hterm, if_false] at h
      by_cases htime : t ≤ w
      · simp only [if_pos htime] at h
        obtain ⟨h1, -, -, -, -⟩ := PollOutcome.done.inj h
        exact Or.inr h1.symm
      · simp only [if_neg htime] at h
        cases hg : g n with
        | error e => rw [hg] at h; exact absurd h (by simp)
        | ok d1 => rw [hg] at h; exact ih _ _ _ _ _ _ _ _ _ _ h

/-- If every status fetch succeeds with a non-terminal status, the polling
loop (given enough fuel) ends by forcing `"TimedOut"`, and the accumulated
wait at that point is at least the budget and less than budget + interval. -/
theorem pollLoop_timeout (g : Nat → Except AzError JobDetails) (t i : Nat)
    (hok : ∀ k, ∃ d, g k = .ok d ∧ isTerminalStatus d.status = false) :
    ∀ fuel st d w n s,
      isTerminalStatus st = false →
      w < t + i →
      t ≤ w + fuel * i →
      ∃ d' w' n' s',
        pollLoop g t i (fuel + 1) st d w n s = .done "TimedOut" d' w' n' s' ∧
          t ≤ w' ∧ w' < t + i := by
  intro fuel
  induction fuel with
  | zero =>
    intro st d w n s hst hw ht
    rw [pollLoop]
    simp only [hst, Bool.false_eq_true, if_false]
    rw [if_pos (by omega)]
    exact ⟨d, w, n, s, rfl, by omega, hw⟩
  | succ fuel ih =>
    intro st d w n s hst hw ht
    rw [pollLoop]
    simp only [hst, Bool.false_eq_true, if_false]
    by_cases htw : t ≤ w
    · rw [if_pos htw]
      exact ⟨d, w, n, s, rfl, htw, hw⟩
    · rw [if_neg htw]
      obtain ⟨d1, hg, hd1⟩ := hok n
      rw [hg]
      have hstep : (fuel + 1) * i = fuel * i + i := Nat.succ_mul fuel i
      exact ih d1.status d1 (w + i) (n + 1) (s + 1) hd1 (by omega) (by omega)

/-- If the status fetches report a non-terminal status `m` times and then a
terminal one, and the budget is not exhausted meanwhile, the polling loop
performs exactly `m + 1` fetches and sleeps, accumulating `(m + 1)`
intervals of wait, and ends on that terminal status. -/
theorem pollLoop_nonterminal_then_terminal (g : Nat → Except AzError JobDetails) (t i : Nat) :
    ∀ m fuel w n s (d0 : JobDetails),
      isTerminalStatus d0.status = false →
      (∀ k, k < m → ∃ d, g (n + k) = .ok d ∧ isTerminalStatus d.status = false) →
      (∀ k, k ≤ m → w + k * i < t) →
      m + 2 ≤ fuel →
      ∀ dC, g (n + m) = .ok dC → isTerminalStatus dC.status = true →
        pollLoop g t i fuel d0.status d0 w n s =
          .done dC.status dC (w + (m + 1) * i) (n + (m + 1)) (s + (m + 1)) := by
  intro m
  induction m with
  | zero =>
    intro fuel w n s d0 hst hrun hbud hfuel dC hgC htC
    match fuel, hfuel with
    | f + 2, _ =>
      rw [show f + 2 = f + 1 + 1 from rfl, pollLoop]
      simp only [hst, Bool.false_eq_true, if_false]
      rw [if_neg (by have := hbud 0 (by omega); omega)]
      rw [show n + 0 = n from rfl] at hgC
      simp only [hgC]
      rw [pollLoop]
      simp only [htC, if_true, PollOutcome.done.injEq, true_and]
      simp
  | succ m ih =>
    intro fuel w n s d0 hst hrun hbud hfuel dC hgC htC
    match fuel, hfuel with
    | f + 1, _ =>
      rw [pollLoop]
      simp only [hst, Bool.false_eq_true, if_false]
      rw [if_neg (by have := hbud 0 (by omega); omega)]
      obtain ⟨d1, hg1, hd1⟩ := hrun 0 (by omega)
      rw [show n + 0 = n from rfl] at hg1
      simp only [hg1]
      have hrun' : ∀ k, k < m → ∃ d, g (n + 1 + k) = .ok d ∧ isTerminalStatus d.status = false := by
        intro k hk
        obtain ⟨d2, hg2, hd2⟩ := hrun (k + 1) (by omega)
        exact ⟨d2, by rw [show n + 1 + k = n + (k + 1) by omega]; exact hg2, hd2⟩
      have hbud' : ∀ k, k ≤ m → (w + i) + k * i < t := by
        intro k hk
        have := hbud (k + 1) (by omega)
        rw [Nat.succ_mul] at this
        omega
      have hgC' : g (n + 1 + m) = .ok dC := by
        rw [show n + 1 + m = n + (m + 1) by omega]
        exact hgC
      have := ih f (w + i) (n + 1) (s + 1) d1 hd1 hrun' hbud' (by omega) dC hgC' htC
      rw [this]
      have hmul : (m + 1 + 1) * i = (m + 1) * i + i := Nat.succ_mul (m + 1) i
      simp only [PollOutcome.done.injEq, true_and]
      refine ⟨by rw [hmul]; omega, by omega, by omega⟩

/-- A `done` exit of the polling loop performed the same number `m` of status
fetches and sleeps, and accumulated exactly `m` poll intervals of wait. -/
theorem pollLoop_done_steps (g : Nat → Except AzError JobDetails) (t i : Nat) :
    ∀ fuel st d w n s st' d' w' n' s',
      pollLoop g t i fuel st d w n s = .done st' d' w' n' s' →
      ∃ m, w' = w + m * i ∧ n' = n + m ∧ s' = s + m := by
  intro fuel
  induction fuel with
  | zero =>
    intro st d w n s st' d' w' n' s' h
    simp [pollLoop] at h
  | succ fuel ih =>
    intro st d w n s st' d' w' n' s' h
    rw [pollLoop] at h
    by_cases hterm : isTerminalStatus st = true
    · simp only [hterm, if_true] at h
      obtain ⟨-, -, h3, h4, h5⟩ := PollOutcome.done.inj h
      exact ⟨0, by omega, by omega, by omega⟩
    · simp only [hterm, if_false] at h
      by_cases htime : t ≤ w
      · simp only [if_pos htime] at h
        obtain ⟨-, -, h3, h4, h5⟩ := PollOutcome.done.inj h
        exact ⟨0, by omega, by omega, by omega⟩
      · simp only [if_neg htime] at h
        cases hg : g n with
        | error e => rw [hg] at h; exact absurd h (by simp)
        | ok d1 =>
          rw [hg] at h
          obtain ⟨m, hw, hn, hs⟩ := ih _ _ _ _ _ _ _ _ _ _ h
          refine ⟨m + 1, ?_, by omega, by omega⟩
          rw [Nat.succ_mul]
          omega

/-- The composed result always carries the final status it was given. -/
theorem composeResult_status (job_guid runbook_name automation_account_name : String)
    (parameters : Option (List (String × String)))
    (finalStatus : String) (details : JobDetails) (job_timeout_seconds : Nat)
    (streamFetch : Except FetchErr (List RawStream)) :
    (composeResult job_guid runbook_name automation_account_name parameters
      finalStatus details job_timeout_seconds streamFetch).1.status = finalStatus := by
  unfold composeResult
  by_cases h1 : finalStatus == "Completed" <;>
    by_cases h2 : isFailedLike finalStatus <;>
      by_cases h3 : finalStatus == "TimedOut" <;>
        simp [h1, h2, h3]

/-- For every status the polling loop can report, the composed result has an
`error_summary` exactly when the status is not `"Completed"`. -/
theorem composeResult_error_summary (job_guid rb acct : String)
    (p : Option (List (String × String))) (st : String) (d : JobDetails) (t : Nat)
    (f : Except FetchErr (List RawStream))
    (hst : isTerminalStatus st = true ∨ st = "TimedOut") :
    ((composeResult job_guid rb acct p st d t f).1.error_summary ≠ none ↔
      st ≠ "Completed") := by
  rcases hst with h | rfl
  · rcases isTerminalStatus_cases st h with rfl | rfl | rfl | rfl <;>
      simp [composeResult, isFailedLike]
  · simp [composeResult, isFailedLike]

/-- For every status the polling loop can report, the composed result has a
non-empty `output_streams` list. -/
theorem composeResult_output_ne_nil (job_guid rb acct : String)
    (p : Option (List (String × String))) (st : String) (d : JobDetails) (t : Nat)
    (f : Except FetchErr (List RawStream))
    (hst : isTerminalStatus st = true ∨ st = "TimedOut") :
    (composeResult job_guid rb acct p st d t f).1.output_streams ≠ [] := by
  rcases hst with h | rfl
  · rcases isTerminalStatus_cases st h with rfl | rfl | rfl | rfl <;>
      simp [composeResult, isFailedLike] <;>
        exact get_job_output_content_ne_nil _ _
  · simp [composeResult, isFailedLike]

/-- The collector is called exactly once when the final status is one of the
four control-plane terminal statuses, and not at all on `"TimedOut"`. -/
theorem composeResult_collectCalls (job_guid rb acct : String)
    (p : Option (List (String × String))) (st : String) (d : JobDetails) (t : Nat)
    (f : Except FetchErr (List RawStream)) :
    (isTerminalStatus st = true → (composeResult job_guid rb acct p st d t f).2 = 1) ∧
      (st = "TimedOut" → (composeResult job_guid rb acct p st d t f).2 = 0) := by
  constructor
  · intro h
    rcases isTerminalStatus_cases st h with rfl | rfl | rfl | rfl <;>
      simp [composeResult, isFailedLike]
  · rintro rfl
    simp [composeResult, isFailedLike]

/-- On a control-plane terminal status, if the stream fetch raised then the
composed result's `output_streams` is exactly the one synthetic error
record. -/
theorem composeResult_fetch_error (job_guid rb acct : String)
    (p : Option (List (String × String))) (st : String) (d : JobDetails) (t : Nat)
    (e : FetchErr) (hst : isTerminalStatus st = true) :
    (composeResult job_guid rb acct p st d t (.error e)).1.output_streams =
      [fetchErrorRecord e] := by
  rcases isTerminalStatus_cases st hst with rfl | rfl | rfl | rfl <;>
    simp [composeResult, isFailedLike, _get_job_output_content]

/-- The error record the timed-out branch synthesizes inline (line 151). -/
def timedOutRecord (job_guid : String) (t : Nat) : OutputRecord :=
  { stream_type := "Error"
    summary := some (timedOutMsg job_guid t)
    value := none }

/-- On `"TimedOut"`, the composed result's `output_streams` is the single
inline-synthesized error record — whatever the stream fetch would have
returned. -/
theorem composeResult_timedOut_output (job_guid rb acct : String)
    (p : Option (List (String × String))) (d : JobDetails) (t : Nat)
    (f : Except FetchErr (List RawStream)) :
    (composeResult job_guid rb acct p "TimedOut" d t f).1.output_streams =
      [timedOutRecord job_guid t] := by
  simp [composeResult, isFailedLike, timedOutRecord]

/-- On `"TimedOut"`, the composed result's `error_summary` is the synthesized
message naming the configured budget. -/
theorem composeResult_timedOut_summary (job_guid rb acct : String)
    (p : Option (List (String × String))) (d : JobDetails) (t : Nat)
    (f : Except FetchErr (List RawStream)) :
    (composeResult job_guid rb acct p "TimedOut" d t f).1.error_summary =
      some (timedOutMsg job_guid t) := by
  simp [composeResult, isFailedLike]

/-- A failed-like status is `"Failed"`, `"Suspended"` or `"Stopped"`. -/
theorem isFailedLike_cases (s : String) (h : isFailedLike s = true) :
    s = "Failed" ∨ s = "Suspended" ∨ s = "Stopped" := by
  simp only [isFailedLike, Bool.or_eq_true, beq_iff_eq] at h
  tauto

/-- When the reported exception detail is truthy, the composer forwards it
verbatim as the `error_summary` of a failed-like result. -/
theorem composeResult_exception_detail (job_guid rb acct : String)
    (p : Option (List (String × String))) (st : String) (d : JobDetails) (t : Nat)
    (f : Except FetchErr (List RawStream))
    (hf : isFailedLike st = true) (he : truthyStr d.exception = true) :
    (composeResult job_guid rb acct p st d t f).1.error_summary = d.exception := by
  cases hex : d.exception with
  | none => rw [hex] at he; simp [truthyStr] at he
  | some v =>
    rcases isFailedLike_cases st hf with rfl | rfl | rfl <;>
      simp [composeResult, isFailedLike, hex, he, hex ▸ he]

/-- Inversion: when the orchestrator returns a composed `result` dict, job
creation succeeded, the polling loop reported `done`, and the trace's fields
come from that loop exit and from the composer. -/
theorem create_and_monitor_result_inv (cp : ControlPlane)
    (rg acct rb guid : String) (params : Option (List (String × String)))
    (i t fuel : Nat) (trace : RunTrace) (r : JobResult)
    (h : _create_and_monitor_runbook_job cp rg acct rb guid params i t fuel = some trace)
    (hout : trace.outcome = .result r) :
    ∃ initial st d w g s,
      cp.createResult = .ok initial ∧
      pollLoop cp.getResult t i fuel initial.status initial 0 0 0 = .done st d w g s ∧
      r = (composeResult guid rb acct params st d t cp.streamFetch).1 ∧
      trace.collectCalls = (composeResult guid rb acct params st d t cp.streamFetch).2 ∧
      trace.getCalls = g ∧ trace.sleeps = s ∧ trace.totalWait = w := by
  unfold _create_and_monitor_runbook_job at h
  cases hc : cp.createResult with
  | error e =>
    simp only [hc] at h
    obtain ⟨rfl⟩ := Option.some.inj h
    simp at hout
  | ok initial =>
    simp only [hc] at h
    cases hp : pollLoop cp.getResult t i fuel initial.status initial 0 0 0 with
    | fuelOut => simp [hp] at h
    | pollError e w g s =>
      simp only [hp] at h
      obtain ⟨rfl⟩ := Option.some.inj h
      simp at hout
    | done st d w g s =>
      simp only [hp] at h
      obtain ⟨rfl⟩ := Option.some.inj h
      simp only [RunOutcome.result.injEq] at hout
      exact ⟨initial, st, d, w, g, s, rfl, hp, hout.symm, rfl, rfl, rfl, rfl⟩

/-- Whenever `_create_and_monitor_runbook_job` returns a trace, exactly one
`job.create` call was issued. -/
theorem create_and_monitor_createCalls (cp : ControlPlane)
    (rg acct rb guid : String) (params : Option (List (String × String)))
    (i t fuel : Nat) (trace : RunTrace)
    (h : _create_and_monitor_runbook_job cp rg acct rb guid params i t fuel = some trace) :
    trace.createCalls = 1 := by
  unfold _create_and_monitor_runbook_job at h
  cases hc : cp.createResult with
  | error e =>
    simp only [hc] at h
    obtain ⟨rfl⟩ := Option.some.inj h; rfl
  | ok initial =>
    simp only [hc] at h
    cases hp : pollLoop cp.getResult t i fuel initial.status initial 0 0 0 with
    | fuelOut => simp [hp] at h
    | pollError e w g s =>
      simp only [hp] at h
      obtain ⟨rfl⟩ := Option.some.inj h; rfl
    | done st d w g s =>
      simp only [hp] at h
      obtain ⟨rfl⟩ := Option.some.inj h; rfl

/-! ## The claims -/

/-- C2: for every `result` dict the orchestrator composes, `error_summary` is
set exactly when the final status is not `Completed`; for a timed-out run it
names the configured budget, and for failed-like statuses it forwards the
control-plane exception detail verbatim whenever one is present. -/
theorem C2_error_summary_iff_not_completed
    (cp : ControlPlane) (rg acct rb guid : String)
    (params : Option (List (String × String))) (i t fuel : Nat)
    (trace : RunTrace) (r : JobResult)
    (h : _create_and_monitor_runbook_job cp rg acct rb guid params i t fuel = some trace)
    (hout : trace.outcome = .result r) :
    (r.error_summary ≠ none ↔ r.status ≠ "Completed") ∧
      (r.status = "TimedOut" → r.error_summary = some (timedOutMsg guid t)) ∧
      (∀ st d, isFailedLike st = true → truthyStr d.exception = true →
        (composeResult guid rb acct params st d t cp.streamFetch).1.error_summary =
          d.exception) := by
  obtain ⟨initial, st, d, w, g, s, hc, hp, hr, -, -, -, -⟩ :=
    create_and_monitor_result_inv cp rg acct rb guid params i t fuel trace r h hout
  have hstat := pollLoop_done_status cp.getResult t i fuel _ _ _ _ _ _ _ _ _ _ hp
  subst hr
  rw [composeResult_status]
  refine ⟨composeResult_error_summary guid rb acct params st d t cp.streamFetch hstat,
    ?_, ?_⟩
  · rintro rfl
    exact composeResult_timedOut_summary guid rb acct params d t cp.streamFetch
  · intro st2 d2 hf he
    exact composeResult_exception_detail guid rb acct params st2 d2 t cp.streamFetch hf he

/-- C2 witness: a concrete `Failed` run. -/
theorem C2_witness :
    (((composeResult "guid" "rb" "acct" none "Failed" jdFailed 900
        cpFailedNow.streamFetch).1.error_summary ≠ none ↔
      (composeResult "guid" "rb" "acct" none "Failed" jdFailed 900
        cpFailedNow.streamFetch).1.status ≠ "Completed") ∧
      ((composeResult "guid" "rb" "acct" none "Failed" jdFailed 900
          cpFailedNow.streamFetch).1.status = "TimedOut" →
        (composeResult "guid" "rb" "acct" none "Failed" jdFailed 900
          cpFailedNow.streamFetch).1.error_summary = some (timedOutMsg "guid" 900)) ∧
      (∀ st d, isFailedLike st = true → truthyStr d.exception = true →
        (composeResult "guid" "rb" "acct" none st d 900
          cpFailedNow.streamFetch).1.error_summary = d.exception)) :=
  C2_error_summary_iff_not_completed cpFailedNow "rg" "acct" "rb" "guid" none 10 900 1
    { createCalls := 1, getCalls := 0, sleeps := 0, totalWait := 0, collectCalls := 1
      outcome := .result (composeResult "guid" "rb" "acct" none "Failed" jdFailed 900
        cpFailedNow.streamFetch).1 }
    (composeResult "guid" "rb" "acct" none "Failed" jdFailed 900 cpFailedNow.streamFetch).1
    rfl rfl

/-- C3: every composed `result` dict has a non-empty `output_streams` list,
and when the control plane returns zero stream records the collector
synthesizes exactly the single informational placeholder record. -/
theorem C3_output_streams_nonempty
    (cp : ControlPlane) (rg acct rb guid : String)
    (params : Option (List (String × String))) (i t fuel : Nat)
    (trace : RunTrace) (r : JobResult)
    (h : _create_and_monitor_runbook_job cp rg acct rb guid params i t fuel = some trace)
    (hout : trace.outcome = .result r) :
    r.output_streams ≠ [] ∧
      _get_job_output_content guid (.ok []) = [noRecordsPlaceholder] := by
  obtain ⟨initial, st, d, w, g, s, hc, hp, hr, -, -, -, -⟩ :=
    create_and_monitor_result_inv cp rg acct rb guid params i t fuel trace r h hout
  have hstat := pollLoop_done_status cp.getResult t i fuel _ _ _ _ _ _ _ _ _ _ hp
  subst hr
  exact ⟨composeResult_output_ne_nil guid rb acct params st d t cp.streamFetch hstat, rfl⟩

/-- C3 witness: the concrete `Failed` run with zero stream records. -/
theorem C3_witness :
    ((composeResult "guid" "rb" "acct" none "Failed" jdFailed 900
        cpFailedNow.streamFetch).1.output_streams ≠ [] ∧
      _get_job_output_content "guid" (.ok []) = [noRecordsPlaceholder]) :=
  C3_output_streams_nonempty cpFailedNow "rg" "acct" "rb" "guid" none 10 900 1
    { createCalls := 1, getCalls := 0, sleeps := 0, totalWait := 0, collectCalls := 1
      outcome := .result (composeResult "guid" "rb" "acct" none "Failed" jdFailed 900
        cpFailedNow.streamFetch).1 }
    (composeResult "guid" "rb" "acct" none "Failed" jdFailed 900 cpFailedNow.streamFetch).1
    rfl rfl

/-- C5: when the stream fetch raises after the job reached a control-plane
terminal state, the returned `result` dict keeps that terminal status,
carries exactly one synthetic `Error`-kind record, and a `Completed` job is
not downgraded (its `error_summary` stays unset). -/
theorem C5_fetch_failure_single_error_record
    (cp : ControlPlane) (rg acct rb guid : String)
    (params : Option (List (String × String))) (i t fuel : Nat)
    (trace : RunTrace) (r : JobResult) (e : FetchErr)
    (hfetch : cp.streamFetch = .error e)
    (h : _create_and_monitor_runbook_job cp rg acct rb guid params i t fuel = some trace)
    (hout : trace.outcome = .result r)
    (hterm : isTerminalStatus r.status = true) :
    r.output_streams = [fetchErrorRecord e] ∧
      (fetchErrorRecord e).stream_type = "Error" ∧
      (r.status = "Completed" → r.error_summary = none) := by
  obtain ⟨initial, st, d, w, g, s, hc, hp, hr, -, -, -, -⟩ :=
    create_and_monitor_result_inv cp rg acct rb guid params i t fuel trace r h hout
  have hstat := pollLoop_done_status cp.getResult t i fuel _ _ _ _ _ _ _ _ _ _ hp
  subst hr
  rw [composeResult_status] at hterm ⊢
  refine ⟨?_, ?_, ?_⟩
  · rw [hfetch]
    exact composeResult_fetch_error guid rb acct params st d t e hterm
  · cases e <;> rfl
  · intro hcomp
    subst hcomp
    have hiff := composeResult_error_summary guid rb acct params "Completed" d t
      cp.streamFetch hstat
    simpa using hiff

/-- C5 witness: a concrete `Completed` job whose stream fetch raises. -/
theorem C5_witness :
    ((composeResult "guid" "rb" "acct" none "Completed" jdCompleted 900
        cpCompletedFetchErr.streamFetch).1.output_streams =
          [fetchErrorRecord (.httpError "fetch boom")] ∧
      (fetchErrorRecord (.httpError "fetch boom")).stream_type = "Error" ∧
      ((composeResult "guid" "rb" "acct" none "Completed" jdCompleted 900
          cpCompletedFetchErr.streamFetch).1.status = "Completed" →
        (composeResult "guid" "rb" "acct" none "Completed" jdCompleted 900
          cpCompletedFetchErr.streamFetch).1.error_summary = none)) :=
  C5_fetch_failure_single_error_record cpCompletedFetchErr "rg" "acct" "rb" "guid"
    none 10 900 1
    { createCalls := 1, getCalls := 0, sleeps := 0, totalWait := 0, collectCalls := 1
      outcome := .result (composeResult "guid" "rb" "acct" none "Completed" jdCompleted 900
        cpCompletedFetchErr.streamFetch).1 }
    (composeResult "guid" "rb" "acct" none "Completed" jdCompleted 900
      cpCompletedFetchErr.streamFetch).1
    (.httpError "fetch boom") rfl rfl rfl rfl

/-- C6: when the control plane never reports a terminal status (and every
status fetch succeeds), the polling loop terminates with final state
`TimedOut` exactly when the accumulated wait reaches the budget: the total
wait is at least the budget, less than budget + one poll interval, and is
exactly the number of sleeps times the fixed poll interval. -/
theorem C6_timeout_budget_exact
    (cp : ControlPlane) (rg acct rb guid : String)
    (params : Option (List (String × String))) (i t fuel : Nat)
    (initial : JobDetails)
    (hc : cp.createResult = .ok initial)
    (hnt0 : isTerminalStatus initial.status = false)
    (hok : ∀ k, ∃ d, cp.getResult k = .ok d ∧ isTerminalStatus d.status = false)
    (hi : 0 < i) (hfuel : t ≤ fuel * i) :
    ∃ trace r,
      _create_and_monitor_runbook_job cp rg acct rb guid params i t (fuel + 1) =
          some trace ∧
        trace.outcome = .result r ∧ r.status = "TimedOut" ∧
        r.error_summary = some (timedOutMsg guid t) ∧
        t ≤ trace.totalWait ∧ trace.totalWait < t + i ∧
        trace.totalWait = trace.sleeps * i ∧ trace.getCalls = trace.sleeps := by
  obtain ⟨d', w', n', s', hploop, hle, hlt⟩ :=
    pollLoop_timeout cp.getResult t i hok fuel initial.status initial 0 0 0 hnt0
      (by omega) (by omega)
  obtain ⟨m, hw, hn, hs⟩ :=
    pollLoop_done_steps cp.getResult t i (fuel + 1) _ _ _ _ _ _ _ _ _ _ hploop
  unfold _create_and_monitor_runbook_job
  simp only [hc, hploop]
  refine ⟨_, _, rfl, rfl, ?_, ?_, hle, hlt, ?_, ?_⟩
  · exact composeResult_status guid rb acct params "TimedOut" d' t cp.streamFetch
  · exact composeResult_timedOut_summary guid rb acct params d' t cp.streamFetch
  · show w' = s' * i
    rw [hw, hs]
    ring
  · show n' = s'
    omega

/-- C6 witness: budget 25, interval 10, a control plane stuck on `Running`:
the run times out with total wait 30. -/
theorem C6_witness :
    ∃ trace r,
      _create_and_monitor_runbook_job cpNeverTerminal "rg" "acct" "rb" "guid" none 10 25
          (3 + 1) =
          some trace ∧
        trace.outcome = .result r ∧ r.status = "TimedOut" ∧
        r.error_summary = some (timedOutMsg "guid" 25) ∧
        25 ≤ trace.totalWait ∧ trace.totalWait < 25 + 10 ∧
        trace.totalWait = trace.sleeps * 10 ∧ trace.getCalls = trace.sleeps :=
  C6_timeout_budget_exact cpNeverTerminal "rg" "acct" "rb" "guid" none 10 25 3 jdQueued
    rfl rfl (fun _ => ⟨jdRunning, rfl, rfl⟩) (by decide) (by decide)

/-- C7: when the control plane reports `Running` for `N` status reports (the
one on the creation acknowledgment included) and then `Completed`, the
orchestrator issues `N + 1` status calls in total (1 creation + N fetches),
sleeps `N` times, and the accumulated wait is exactly `N` poll intervals. -/
theorem C7_n_ticks_then_completed
    (cp : ControlPlane) (rg acct rb guid : String)
    (params : Option (List (String × String))) (i t fuel N : Nat)
    (initial : JobDetails)
    (hc : cp.createResult = .ok initial)
    (hst : initial.status = if N = 0 then "Completed" else "Running")
    (hget : ∀ k, k + 1 < N → ∃ d, cp.getResult k = .ok d ∧ d.status = "Running")
    (hgetC : 0 < N → ∃ d, cp.getResult (N - 1) = .ok d ∧ d.status = "Completed")
    (hi : 0 < i) (ht : N * i ≤ t) (hfuel : N + 2 ≤ fuel) :
    ∃ trace r,
      _create_and_monitor_runbook_job cp rg acct rb guid params i t fuel = some trace ∧
        trace.outcome = .result r ∧
        trace.createCalls + trace.getCalls = N + 1 ∧
        trace.sleeps = N ∧ trace.totalWait = N * i ∧
        r.status = "Completed" := by
  cases N with
  | zero =>
    have hst0 : initial.status = "Completed" := by simpa using hst
    match fuel, hfuel with
    | f + 1, _ =>
      unfold _create_and_monitor_runbook_job
      simp only [hc]
      rw [pollLoop]
      simp only [hst0]
      rw [if_pos (by decide)]
      refine ⟨_, _, rfl, rfl, by simp, by simp, by simp, ?_⟩
      rw [composeResult_status]
  | succ m =>
    have hnt : isTerminalStatus initial.status = false := by
      rw [hst]
      simp [isTerminalStatus]
    have hrun : ∀ k, k < m →
        ∃ d, cp.getResult (0 + k) = .ok d ∧ isTerminalStatus d.status = false := by
      intro k hk
      obtain ⟨d, hgd, hds⟩ := hget k (by omega)
      refine ⟨d, ?_, ?_⟩
      · rw [Nat.zero_add]
        exact hgd
      · rw [hds]
        simp [isTerminalStatus]
    have hbud : ∀ k, k ≤ m → 0 + k * i < t := by
      intro k hk
      have h1 : (k + 1) * i ≤ (m + 1) * i := Nat.mul_le_mul_right i (by omega)
      rw [Nat.succ_mul] at h1
      omega
    obtain ⟨dC, hgC, hdC⟩ := hgetC (by omega)
    have hgC0 : cp.getResult (0 + m) = .ok dC := by
      rw [Nat.zero_add]
      simpa using hgC
    have htC : isTerminalStatus dC.status = true := by
      rw [hdC]
      simp [isTerminalStatus]
    have hploop := pollLoop_nonterminal_then_terminal cp.getResult t i m fuel 0 0 0
      initial hnt hrun hbud (by omega) dC hgC0 htC
    unfold _create_and_monitor_runbook_job
    simp only [hc, hploop]
    refine ⟨_, _, rfl, rfl, ?_, ?_, ?_, ?_⟩
    · show 1 + (0 + (m + 1)) = m + 1 + 1
      omega
    · show 0 + (m + 1) = m + 1
      omega
    · show 0 + (m + 1) * i = (m + 1) * i
      omega
    · rw [composeResult_status, hdC]

/-- C7 witness: `Running` for 2 reports then `Completed`, poll interval 10:
3 status calls in total, 2 sleeps, total wait 20. -/
theorem C7_witness :
    ∃ trace r,
      _create_and_monitor_runbook_job (cpRunningTicks 2) "rg" "acct" "rb" "guid" none
          10 900 4 = some trace ∧
        trace.outcome = .result r ∧
        trace.createCalls + trace.getCalls = 2 + 1 ∧
        trace.sleeps = 2 ∧ trace.totalWait = 2 * 10 ∧
        r.status = "Completed" :=
  C7_n_ticks_then_completed (cpRunningTicks 2) "rg" "acct" "rb" "guid" none 10 900 4 2
    (if 2 = 0 then jdCompleted else jdRunning) rfl rfl
    (by
      intro k hk
      have hk0 : k = 0 := by omega
      subst hk0
      exact ⟨jdRunning, rfl, rfl⟩)
    (fun _ => ⟨jdCompleted, rfl, rfl⟩)
    (by decide) (by decide) (by decide)

/-- C10: when the creation acknowledgment already reports a control-plane
terminal status, the orchestrator performs zero sleeps and zero status
fetches, and proceeds directly to collection (one collector call) and
composition with that initial status as the final state. -/
theorem C10_initial_terminal_skips_polling
    (cp : ControlPlane) (rg acct rb guid : String)
    (params : Option (List (String × String))) (i t fuel : Nat)
    (initial : JobDetails)
    (hc : cp.createResult = .ok initial)
    (hterm : isTerminalStatus initial.status = true) :
    _create_and_monitor_runbook_job cp rg acct rb guid params i t (fuel + 1) =
      some { createCalls := 1, getCalls := 0, sleeps := 0, totalWait := 0
             collectCalls := 1
             outcome := .result (composeResult guid rb acct params initial.status
               initial t cp.streamFetch).1 } ∧
      (composeResult guid rb acct params initial.status initial t
        cp.streamFetch).1.status = initial.status := by
  have hcc := (composeResult_collectCalls guid rb acct params initial.status initial t
    cp.streamFetch).1 hterm
  constructor
  · unfold _create_and_monitor_runbook_job
    simp only [hc]
    rw [pollLoop]
    simp only [hterm, if_true, hcc]
  · exact composeResult_status guid rb acct params initial.status initial t cp.streamFetch

/-- C10 witness: the `Failed`-on-arrival control plane. -/
theorem C10_witness :
    (_create_and_monitor_runbook_job cpFailedNow "rg" "acct" "rb" "guid" none 10 900
        (0 + 1) =
      some { createCalls := 1, getCalls := 0, sleeps := 0, totalWait := 0
             collectCalls := 1
             outcome := .result (composeResult "guid" "rb" "acct" none jdFailed.status
               jdFailed 900 cpFailedNow.streamFetch).1 } ∧
      (composeResult "guid" "rb" "acct" none jdFailed.status jdFailed 900
        cpFailedNow.streamFetch).1.status = jdFailed.status) :=
  C10_initial_terminal_skips_polling cpFailedNow "rg" "acct" "rb" "guid" none 10 900 0
    jdFailed rfl rfl

/-- C1 counterexample: with a control plane whose first status fetch succeeds
(`Running`) and whose second raises, the orchestrator — after 2 issued
fetches — returns a bare error dict, not a composed `result` carrying the
job identity and the last known state; the claim as stated is false of the
code. -/
theorem C1_counterexample :
    (_create_and_monitor_runbook_job cpPollBreaks "rg" "acct" "rb" "guid" none
        10 900 5).map (fun tr => (tr.getCalls, isResultOutcome tr.outcome)) =
      some (2, false) := rfl

/-- C1 (amended): a status-fetch failure mid-loop — even after successful
fetches — makes the orchestrator return the bare `{"Error": msg}` dict of
the matching exception handler, wholly discarding the job identity and the
last known state. -/
theorem C1_amended_polling_error_returns_bare_error
    (cp : ControlPlane) (rg acct rb guid : String)
    (params : Option (List (String × String))) (i t fuel : Nat)
    (initial : JobDetails) (e : AzError) (w g s : Nat)
    (hc : cp.createResult = .ok initial)
    (hp : pollLoop cp.getResult t i fuel initial.status initial 0 0 0 =
      .pollError e w g s) :
    _create_and_monitor_runbook_job cp rg acct rb guid params i t fuel =
      some { createCalls := 1, getCalls := g, sleeps := s, totalWait := w
             collectCalls := 0
             outcome := .bareError (lifecycleErrMsg rg acct rb e) } := by
  unfold _create_and_monitor_runbook_job
  simp only [hc, hp]

/-- C1 witness: the concrete two-fetch run whose second fetch raises. -/
theorem C1_witness :
    _create_and_monitor_runbook_job cpPollBreaks "rg" "acct" "rb" "guid" none 10 900 5 =
      some { createCalls := 1, getCalls := 2, sleeps := 2, totalWait := 20
             collectCalls := 0
             outcome := .bareError
               (lifecycleErrMsg "rg" "acct" "rb" (.httpError "reset" "" "")) } :=
  C1_amended_polling_error_returns_bare_error cpPollBreaks "rg" "acct" "rb" "guid"
    none 10 900 5 jdRunning (.httpError "reset" "" "") 20 2 2 rfl rfl

/-- C4 counterexample: a run that times out (a terminal state) performs zero
collector invocations, so the collector is not invoked after every terminal
state; the claim as stated is false of the code. -/
theorem C4_counterexample :
    (_create_and_monitor_runbook_job cpTimedOutQuick "rg" "acct" "rb" "guid" none
        10 0 3).map (fun tr => (tr.collectCalls, outcomeStatus tr.outcome)) =
      some (0, some "TimedOut") := rfl

/-- C4 (amended): the collector is invoked (exactly once) after each of the
four control-plane terminal states, but on `TimedOut` it is not invoked at
all — the output is the single inline-synthesized error record instead of a
best-effort fetch. -/
theorem C4_amended_collector_not_called_on_timeout
    (cp : ControlPlane) (rg acct rb guid : String)
    (params : Option (List (String × String))) (i t fuel : Nat)
    (trace : RunTrace) (r : JobResult)
    (h : _create_and_monitor_runbook_job cp rg acct rb guid params i t fuel = some trace)
    (hout : trace.outcome = .result r) :
    (isTerminalStatus r.status = true → trace.collectCalls = 1) ∧
      (r.status = "TimedOut" → trace.collectCalls = 0 ∧
        r.output_streams = [timedOutRecord guid t]) := by
  obtain ⟨initial, st, d, w, g, s, hc, hp, hr, hcc, -, -, -⟩ :=
    create_and_monitor_result_inv cp rg acct rb guid params i t fuel trace r h hout
  subst hr
  rw [composeResult_status, hcc]
  constructor
  · exact (composeResult_collectCalls guid rb acct params st d t cp.streamFetch).1
  · intro hTO
    subst hTO
    exact ⟨(composeResult_collectCalls guid rb acct params "TimedOut" d t
        cp.streamFetch).2 rfl,
      composeResult_timedOut_output guid rb acct params d t cp.streamFetch⟩

/-- C4 witness: the immediate-timeout run. -/
theorem C4_witness :
    ((isTerminalStatus (composeResult "guid" "rb" "acct" none "TimedOut" jdQueued 0
        cpTimedOutQuick.streamFetch).1.status = true →
      ({ createCalls := 1, getCalls := 0, sleeps := 0, totalWait := 0
         collectCalls := (composeResult "guid" "rb" "acct" none "TimedOut" jdQueued 0
           cpTimedOutQuick.streamFetch).2
         outcome := .result (composeResult "guid" "rb" "acct" none "TimedOut" jdQueued 0
           cpTimedOutQuick.streamFetch).1 } : RunTrace).collectCalls = 1) ∧
      ((composeResult "guid" "rb" "acct" none "TimedOut" jdQueued 0
          cpTimedOutQuick.streamFetch).1.status = "TimedOut" →
        ({ createCalls := 1, getCalls := 0, sleeps := 0, totalWait := 0
           collectCalls := (composeResult "guid" "rb" "acct" none "TimedOut" jdQueued 0
             cpTimedOutQuick.streamFetch).2
           outcome := .result (composeResult "guid" "rb" "acct" none "TimedOut" jdQueued 0
             cpTimedOutQuick.streamFetch).1 } : RunTrace).collectCalls = 0 ∧
          (composeResult "guid" "rb" "acct" none "TimedOut" jdQueued 0
            cpTimedOutQuick.streamFetch).1.output_streams =
            [timedOutRecord "guid" 0])) :=
  C4_amended_collector_not_called_on_timeout cpTimedOutQuick "rg" "acct" "rb" "guid"
    none 10 0 3
    { createCalls := 1, getCalls := 0, sleeps := 0, totalWait := 0
      collectCalls := (composeResult "guid" "rb" "acct" none "TimedOut" jdQueued 0
        cpTimedOutQuick.streamFetch).2
      outcome := .result (composeResult "guid" "rb" "acct" none "TimedOut" jdQueued 0
        cpTimedOutQuick.streamFetch).1 }
    (composeResult "guid" "rb" "acct" none "TimedOut" jdQueued 0
      cpTimedOutQuick.streamFetch).1
    rfl rfl

/-- C8 counterexample: with an empty `runbook_name` (and non-empty resource
group and VM name), the trigger still issues the job-creation network call
(`createCalls = 1`); the claim that an empty `runbook_name` fails before any
network call is false of the code. -/
theorem C8_counterexample :
    (trigger_vm_power_status_runbook_logic cpFailedNow "rg" "vm01" "acct" "" "guid"
        1).map (fun tr => tr.createCalls) = some 1 := rfl

/-- C8 (amended): the trigger validates only `resource_group_name` and
`vm_name` — an empty one fails with the matching bare error dict before any
network call — while `runbook_name` (and the account name) are not
validated: whenever both checked fields are non-empty, exactly one
job-creation call is issued no matter what `runbook_name` is. -/
theorem C8_amended_only_rg_and_vm_validated
    (cp : ControlPlane) (rg vm acct rb guid : String) (fuel : Nat) :
    (rg = "" → trigger_vm_power_status_runbook_logic cp rg vm acct rb guid fuel =
      some { createCalls := 0, getCalls := 0, sleeps := 0, totalWait := 0
             collectCalls := 0
             outcome := .bareError
               "Resource group name for the Automation Account is required." }) ∧
      (rg ≠ "" → vm = "" →
        trigger_vm_power_status_runbook_logic cp rg vm acct rb guid fuel =
          some { createCalls := 0, getCalls := 0, sleeps := 0, totalWait := 0
                 collectCalls := 0
                 outcome := .bareError
                   "VMName parameter is required for the VMPowerStatus runbook." }) ∧
      (rg ≠ "" → vm ≠ "" → ∀ trace,
        trigger_vm_power_status_runbook_logic cp rg vm acct rb guid fuel = some trace →
          trace.createCalls = 1) := by
  refine ⟨?_, ?_, ?_⟩
  · rintro rfl
    simp [trigger_vm_power_status_runbook_logic]
  · intro hrg
    rintro rfl
    simp [trigger_vm_power_status_runbook_logic, hrg]
  · intro hrg hvm trace htr
    unfold trigger_vm_power_status_runbook_logic at htr
    simp only [beq_iff_eq, if_neg hrg, if_neg hvm] at htr
    exact create_and_monitor_createCalls cp rg acct rb guid
      (some [("VMName", vm)]) 10 900 fuel trace htr

/-- C9: with the `spn` strategy, if any of the three required secrets is
unset or empty, `get_credential` raises the missing-configuration
`ConnectionError` with zero token probes, and never returns a credential of
any other strategy. -/
theorem C9_spn_missing_secret_no_probe
    (env : AuthEnv) (probe : Credential → ProbeOutcome)
    (hmiss : truthyStr env.azure_tenant_id = false ∨
      truthyStr env.azure_client_id = false ∨
      truthyStr env.azure_client_secret = false) :
    get_credential env probe "spn" =
        { tokenProbes := 0
          result := .error (configErrorMsg "spn" spnMissingMsg) } ∧
      (∀ c : Credential, (get_credential env probe "spn").result ≠ .ok c) := by
  have h1 : get_credential env probe "spn" =
      { tokenProbes := 0, result := .error (configErrorMsg "spn" spnMissingMsg) } := by
    rcases hmiss with h | h | h <;> simp [get_credential, h]
  refine ⟨h1, ?_⟩
  intro c
  rw [h1]
  simp

/-- C9 witness: an environment with no SPN secrets at all. -/
theorem C9_witness :
    (get_credential emptyAuthEnv (fun _ => .success) "spn" =
        { tokenProbes := 0
          result := .error (configErrorMsg "spn" spnMissingMsg) } ∧
      (∀ c : Credential,
        (get_credential emptyAuthEnv (fun _ => .success) "spn").result ≠ .ok c)) :=
  C9_spn_missing_secret_no_probe emptyAuthEnv (fun _ => .success) (Or.inl rfl)
